import Mathlib

/-!
Verification of the stockaid caching, throttled API client
(`stockaid/cache.py` and `stockaid/throttle/__init__.py`).

The Python source is embedded shallowly:

* Python dicts become association lists with Python's update-in-place
  semantics (`alget` / `alset`).
* The filesystem is an explicit state: a list of (path, content, mtime)
  entries; `os.stat`'s `st_mtime` and `datetime.now().timestamp()` are
  integer timestamps.
* `requests.request` is an environment oracle `Env.http : Req -> String`
  returning the response text, and every performed request is recorded in
  an effect trace along with every `throttle()` invocation.
* pandas serialization (`DataFrame.to_csv` / `pd.read_csv`) is modelled by
  a concrete inverse pair on a simple table type.
* Python truth tests on optional strings (`if t['cache_dir']:` and the
  like) are modelled by `optStrTruthy` (None and the empty string are
  falsy).
* `str.format` (named and single-positional-argument forms) is modelled by
  a character scanner over the template; a missing substitution raises,
  exactly as Python's `KeyError` does.
-/

namespace Stockaid

/-- Keyword arguments of `APICache.api` (`**kwargs`): a string-valued dict. -/
abbrev Kwargs := List (String × String)

/-- The key chain given to `APICache.__init__`: secret name to value;
`none` models a Python `None` entry. -/
abbrev KeyChain := List (String × Option String)

/-- Python dict lookup `d[k]` (first match). -/
def alget {α : Type} : List (String × α) → String → Option α
  | [], _ => none
  | p :: rest, k => if p.1 = k then some p.2 else alget rest k

/-- Python dict assignment `d[k] = v`: overwrite in place, else append. -/
def alset {α : Type} : List (String × α) → String → α → List (String × α)
  | [], k, v => [(k, v)]
  | p :: rest, k, v => if p.1 = k then (k, v) :: rest else p :: alset rest k v

/-- A decoded pandas DataFrame, modelled as rows of string cells. -/
abbrev Table := List (List String)

/-- The newline character separating CSV records. -/
def nlChar : Char := Char.ofNat 10

/-- Split a character list at every occurrence of `sep` (the splitter
underlying CSV parsing; total and structural). -/
def splitOnChar (sep : Char) : List Char → List (List Char)
  | [] => [[]]
  | c :: rest =>
    match splitOnChar sep rest with
    | [] => [[c]]
    | g :: gs => if c = sep then [] :: g :: gs else (c :: g) :: gs

/-- Interleave `sep` between the groups (the joiner underlying CSV
serialization). -/
def joinChar (sep : Char) : List (List Char) → List Char
  | [] => []
  | [g] => g
  | g :: g' :: gs => g ++ sep :: joinChar sep (g' :: gs)

/-- `DataFrame.to_csv`: serialize a table to CSV text. -/
def to_csv (t : Table) : String :=
  String.mk (joinChar nlChar (t.map (fun row => joinChar ',' (row.map String.data))))

/-- `pd.read_csv`: parse CSV text back into a table. -/
def read_csv (s : String) : Table :=
  (splitOnChar nlChar s.data).map (fun line => (splitOnChar ',' line).map String.mk)

/-- The filesystem under the cache root: (path, content, mtime) entries. -/
abbrev FSState := List (String × String × Int)

/-- Find a file: returns (content, mtime) when the path exists. -/
def fsFind : FSState → String → Option (String × Int)
  | [], _ => none
  | e :: rest, p => if e.1 = p then some e.2 else fsFind rest p

/-- Write a file (always overwrites), stamping the given mtime. -/
def fsWrite : FSState → String → String → Int → FSState
  | [], p, c, m => [(p, c, m)]
  | e :: rest, p, c, m => if e.1 = p then (p, c, m) :: rest else e :: fsWrite rest p c m

/-- `os.path.join` for the paths this module builds. -/
def joinPath (a b : String) : String := a ++ "/" ++ b

/-- Python truthiness of a string: only `''` is falsy. -/
def pyStrTruthy (s : String) : Bool := !s.data.isEmpty

/-- Python truthiness of an optional string: `None` and `''` are falsy. -/
def optStrTruthy : Option String → Bool
  | none => false
  | some s => pyStrTruthy s

/-- The `{` character (written via its code point). -/
def lbrace : Char := Char.ofNat 123

/-- The `}` character (written via its code point). -/
def rbrace : Char := Char.ofNat 125

/-- The exceptions `APICache` raises, and Python `KeyError`s from missing
dict entries / format placeholders. -/
inductive ApiError where
  | providerNotRegistered (name : String)
  | apiNotRegistered (name : String)
  | keyError (key : String)
  | missingKey (key : String)
  | formatError
  deriving Repr, DecidableEq

/-- Scanner for `str.format(**d)`: outside a placeholder the mode is
`none`; inside, `some acc` holds the reversed placeholder name read so
far. A placeholder name missing from `d` raises (Python `KeyError`). -/
def pyFormatAux (d : Kwargs) : Option (List Char) → List Char → Except ApiError (List Char)
  | none, [] => .ok []
  | some _, [] => .error .formatError
  | none, c :: rest =>
    if c = lbrace then pyFormatAux d (some []) rest
    else (pyFormatAux d none rest).map (fun out => c :: out)
  | some acc, c :: rest =>
    if c = rbrace then
      match alget d (String.mk acc.reverse) with
      | none => .error (.keyError (String.mk acc.reverse))
      | some v => (pyFormatAux d none rest).map (fun out => v.data ++ out)
    else pyFormatAux d (some (c :: acc)) rest

/-- `tmpl.format(**d)` — named placeholder substitution. -/
def pyFormatNamed (tmpl : String) (d : Kwargs) : Except ApiError String :=
  (pyFormatAux d none tmpl.data).map String.mk

/-- The `'` character (written via its code point). -/
def squote : Char := Char.ofNat 39

/-- Python `str()` of a string-valued dict, as interpolated by
`format`. -/
def reprDict (d : Kwargs) : String :=
  String.singleton lbrace
    ++ String.intercalate ", "
        (d.map (fun p => String.singleton squote ++ p.1 ++ String.singleton squote
          ++ ": " ++ String.singleton squote ++ p.2 ++ String.singleton squote))
    ++ String.singleton rbrace

/-- Scanner for `tmpl.format(d)` with one positional dict argument: only
the placeholders `{}` and `{0}` resolve (to `str(d)`); any named
placeholder raises, as Python's `KeyError`/`IndexError` would. -/
def pyFormatPosAux (sub : List Char) : Option (List Char) → List Char → Except ApiError (List Char)
  | none, [] => .ok []
  | some _, [] => .error .formatError
  | none, c :: rest =>
    if c = lbrace then pyFormatPosAux sub (some []) rest
    else (pyFormatPosAux sub none rest).map (fun out => c :: out)
  | some acc, c :: rest =>
    if c = rbrace then
      if acc.reverse = [] ∨ acc.reverse = ['0'] then
        (pyFormatPosAux sub none rest).map (fun out => sub ++ out)
      else .error (.keyError (String.mk acc.reverse))
    else pyFormatPosAux sub (some (c :: acc)) rest

/-- `tmpl.format(d)` — the body-template formatting of `api`. -/
def pyFormatPos (tmpl : String) (d : Kwargs) : Except ApiError String :=
  (pyFormatPosAux (reprDict d).data none tmpl.data).map String.mk

/-- One `requests.request(method, url, ...)` invocation: either a JSON
body or query parameters, exactly as the two branches of `api` send. -/
structure Req where
  method : String
  url : String
  jsonBody : Option String
  params : Kwargs
  deriving Repr, DecidableEq

/-- Observable side effects of one `api` call, in order. -/
inductive Effect where
  | throttle
  | request (r : Req)
  deriving Repr, DecidableEq

/-- The environment of one call: the current wall clock
(`datetime.now().timestamp()`) and the HTTP transport. -/
structure Env where
  now : Int
  http : Req → String

/-- The dict `t` built by `register_api` describing one endpoint. -/
structure Endpoint where
  url : String
  method : String
  cache_field : Option String
  pandify_fn : String → Option Table
  url_params : List String
  data : Option String
  data_params : List String
  key_map : List (String × String)
  cache_secs : Int
  cache_dir : Option String

/-- `APICache._Provider`: base url, per-provider cache directory, whether
a throttler is installed, and the registered endpoints. -/
structure Provider where
  base_url : String
  cache_dir : Option String
  throttler : Bool
  api_list : List (String × Endpoint)

/-- The `APICache` object: cache root (already validated by `__init__`),
key chain, and registered providers. -/
structure APICache where
  cache_path : Option String
  key_chain : KeyChain
  providers : List (String × Provider)

/-- `register_provider`: derive the provider's cache directory under the
cache root (writability of a directory is an environment oracle, standing
for `_check_cache_dir`) and record the provider. -/
def register_provider (c : APICache) (writable : String → Bool)
    (name base_url : String) (hasThrottler : Bool) : APICache :=
  let cache_dir : Option String :=
    if optStrTruthy c.cache_path then
      let d := joinPath (c.cache_path.getD "") name
      if writable d then some d else none
    else none
  let prov : Provider :=
    { base_url := base_url, cache_dir := cache_dir,
      throttler := hasThrottler, api_list := [] }
  { c with providers := alset c.providers name prov }

/-- `register_api`: raises `ValueError` if the provider is unknown,
derives the endpoint's cache subdirectory and full url, and records the
endpoint dict. -/
def register_api (c : APICache) (writable : String → Bool)
    (provider name url : String) (cache_field : Option String)
    (pandify_fn : String → Option Table) (method : String)
    (url_params : List String) (data : Option String)
    (data_params : List String) (key_map : List (String × String))
    (cache_secs : Int) : Except ApiError APICache :=
  match alget c.providers provider with
  | none => .error (.providerNotRegistered provider)
  | some prov =>
    let cache_dir : Option String :=
      if optStrTruthy prov.cache_dir then
        let d := joinPath (prov.cache_dir.getD "") name
        if writable d then some d else none
      else none
    let api_url : String :=
      if pyStrTruthy prov.base_url then prov.base_url ++ "/" ++ url else url
    let t : Endpoint :=
      { url := api_url, method := method, cache_field := cache_field,
        pandify_fn := pandify_fn, url_params := url_params, data := data,
        data_params := data_params, key_map := key_map,
        cache_secs := cache_secs, cache_dir := cache_dir }
    let prov' : Provider := { prov with api_list := alset prov.api_list name t }
    .ok { c with providers := alset c.providers provider prov' }

/-- Lines 162–169 of `cache.py`: the cache file path, `None` when the
endpoint has no usable cache directory; `kwargs[t['cache_field']]` can
raise `KeyError`. -/
def computeCacheFile (t : Endpoint) (name : String) (kwargs : Kwargs) :
    Except ApiError (Option String) :=
  if optStrTruthy t.cache_dir then
    if optStrTruthy t.cache_field then
      match alget kwargs (t.cache_field.getD "") with
      | none => .error (.keyError (t.cache_field.getD ""))
      | some v => .ok (some (joinPath (t.cache_dir.getD "") (v ++ ".csv")))
    else .ok (some (joinPath (t.cache_dir.getD "") (name ++ ".csv")))
  else .ok none

/-- Lines 170–174 of `cache.py`: the freshness check. Returns the stored
content when the file exists, `refresh` is false and
`now - st.st_mtime < t['cache_secs']`. -/
def cacheHit (fs : FSState) (now : Int) (cache_file : Option String)
    (cache_secs : Int) (refresh : Bool) : Option String :=
  match cache_file with
  | none => none
  | some p =>
    if pyStrTruthy p = true ∧ refresh = false then
      match fsFind fs p with
      | some cm => if now - cm.2 < cache_secs then some cm.1 else none
      | none => none
    else none

/-- The loops `for k in t['url_params']` / `for k in t['data_params']`:
copy each named kwarg into a fresh dict; a missing kwarg raises
`KeyError`. -/
def buildDict (kwargs : Kwargs) : List String → Kwargs → Except ApiError Kwargs
  | [], acc => .ok acc
  | k :: rest, acc =>
    match alget kwargs k with
    | none => .error (.keyError k)
    | some v => buildDict kwargs rest (alset acc k v)

/-- The loop `for k in t['key_map'].keys()`: resolve each mapped secret
against the key chain; a missing or `None` entry raises `ValueError`. -/
def mergeKeys (kc : KeyChain) : List (String × String) → Kwargs → Except ApiError Kwargs
  | [], dp => .ok dp
  | kv :: rest, dp =>
    match alget kc kv.2 with
    | some (some s) => mergeKeys kc rest (alset dp kv.1 s)
    | _ => .error (.missingKey kv.2)

/-- Lines 194–196 of `cache.py`: the request body, present only when the
endpoint's `data` template is truthy and formats to a truthy string. -/
def computeBody (t : Endpoint) (dp : Kwargs) : Except ApiError (Option String) :=
  if optStrTruthy t.data then
    match pyFormatPos (t.data.getD "") dp with
    | .error e => .error e
    | .ok s => .ok (if pyStrTruthy s then some s else none)
  else .ok none

/-- Lines 206–208 of `cache.py`: write the serialized table to the cache
file when there is one and the decode succeeded
(`if cache_file and df is not None: df.to_csv(cache_file)`). -/
def writeBack (fs : FSState) (now : Int) (cf : Option String) (df : Option Table) : FSState :=
  match cf, df with
  | some p, some tab => if pyStrTruthy p = true then fsWrite fs p (to_csv tab) now else fs
  | _, _ => fs

/-- Lines 179–201 of `cache.py`: build the outgoing request — the
formatted url, the data params merged with resolved secrets, and either a
JSON body or query parameters. -/
def buildRequest (kc : KeyChain) (t : Endpoint) (kwargs : Kwargs) :
    Except ApiError Req :=
  match buildDict kwargs t.url_params [] with
  | .error e => .error e
  | .ok up =>
    match pyFormatNamed t.url up with
    | .error e => .error e
    | .ok url =>
      match buildDict kwargs t.data_params [] with
      | .error e => .error e
      | .ok dp0 =>
        match mergeKeys kc t.key_map dp0 with
        | .error e => .error e
        | .ok dp =>
          match computeBody t dp with
          | .error e => .error e
          | .ok body =>
            match body with
            | some d => .ok { method := t.method, url := url, jsonBody := some d, params := [] }
            | none => .ok { method := t.method, url := url, jsonBody := none, params := dp }

/-- Lines 176–210 of `cache.py`: the miss path — throttle, build the
request, perform it, decode with `pandify_fn`, and write the serialized
table back to the cache file. -/
def fetchAndCache (kc : KeyChain) (env : Env) (fs : FSState)
    (hasThrottler : Bool) (t : Endpoint) (cache_file : Option String)
    (kwargs : Kwargs) : Except ApiError (Option Table × FSState × List Effect) :=
  match buildRequest kc t kwargs with
  | .error e => .error e
  | .ok req =>
    let df := t.pandify_fn (env.http req)
    let fs' : FSState := writeBack fs env.now cache_file df
    .ok (df, fs',
      (if hasThrottler then [Effect.throttle] else []) ++ [Effect.request req])

/-- `APICache.api(provider, name, refresh=False, **kwargs)`: resolve the
provider and endpoint, compute the cache file, serve a fresh hit through
`pd.read_csv`, otherwise fetch and cache. Returns the decoded table (or
`none`), the filesystem after the call, and the effect trace. -/
def api (c : APICache) (env : Env) (fs : FSState) (provider name : String)
    (refresh : Bool) (kwargs : Kwargs) :
    Except ApiError (Option Table × FSState × List Effect) :=
  match alget c.providers provider with
  | none => .error (.providerNotRegistered provider)
  | some prov =>
    match alget prov.api_list name with
    | none => .error (.apiNotRegistered name)
    | some t =>
      match computeCacheFile t name kwargs with
      | .error e => .error e
      | .ok cache_file =>
        match cacheHit fs env.now cache_file t.cache_secs refresh with
        | some content => .ok (some (read_csv content), fs, [])
        | none => fetchAndCache c.key_chain env fs prov.throttler t cache_file kwargs

/-- Number of network requests recorded in an effect trace. -/
def numRequests (effs : List Effect) : Nat :=
  (effs.filter (fun e => match e with | .request _ => true | _ => false)).length

/-- `CrudeThrottler`: the call counter and the per-minute bound
(`stockaid/throttle/__init__.py`, lines 20–33). -/
structure CrudeThrottler where
  cpm : Int
  count : Int
  deriving Repr, DecidableEq

/-- `CrudeThrottler.throttle`: increment the counter; past the bound,
reset it to 0 and `time.sleep(60)`. Returns the new state and the seconds
slept. -/
def CrudeThrottler.throttle (s : CrudeThrottler) : CrudeThrottler × Int :=
  let c := s.count + 1
  if c > s.cpm then ({ s with count := 0 }, 60) else ({ s with count := c }, 0)

/-- `n` consecutive `throttle()` calls; returns the final state and the
total seconds slept. -/
def crudeCalls : Nat → CrudeThrottler → CrudeThrottler × Int
  | 0, s => (s, 0)
  | n+1, s =>
    let r := s.throttle
    let r' := crudeCalls n r.1
    (r'.1, r.2 + r'.2)

/-- `LazyTokenBucket` state: capacity `M`, tokens in the bucket `b`,
refill rate `r`, last refill time `last` (Python floats modelled as
rationals). -/
structure LazyTokenBucket where
  M : ℚ
  b : ℚ
  r : ℚ
  last : ℚ
  deriving Repr, DecidableEq

/-- `LazyTokenBucket.__init__(calls_per_min)` executed at time `now`. -/
def LazyTokenBucket.init (calls_per_min now : ℚ) : LazyTokenBucket :=
  { M := calls_per_min, b := calls_per_min, r := calls_per_min / 60, last := now }

/-- The "lazy part" of `throttle`: catch the bucket up to `now`, capping
at `M`, and record `now` as the last refill time. -/
def LazyTokenBucket.refill (s : LazyTokenBucket) (now : ℚ) : LazyTokenBucket :=
  let b1 := s.b + s.r * (now - s.last)
  let b2 := if b1 > s.M then s.M else b1
  { s with b := b2, last := now }

/-- `LazyTokenBucket.throttle`, with the recursion made explicit:
`clock i` is the value returned by the `i`-th `time.time()` call (one per
iteration; a recursive retry does `time.sleep(1)` first). `fuel` bounds
the recursion depth; `none` means the retry loop did not return within
`fuel` iterations. On success, returns the state after deducting one
token together with the index of the next unread clock value, so a run
entered at index `i` returning index `j` slept `j - i - 1` times. -/
def LazyTokenBucket.throttleFuel (clock : Nat → ℚ) :
    Nat → Nat → LazyTokenBucket → Option (LazyTokenBucket × Nat)
  | 0, _, _ => none
  | fuel+1, i, s =>
    let s' := s.refill (clock i)
    if s'.b < 1 then LazyTokenBucket.throttleFuel clock fuel (i+1) s'
    else some ({ s' with b := s'.b - 1 }, i + 1)

/-- `n` consecutive `throttle()` calls, each required to return without
sleeping (fuel 1 allows exactly one refill-check iteration). -/
def bucketCalls (clock : Nat → ℚ) : Nat → Nat → LazyTokenBucket → Option (LazyTokenBucket × Nat)
  | 0, i, s => some (s, i)
  | n+1, i, s =>
    (LazyTokenBucket.throttleFuel clock 1 i s).bind
      (fun si => bucketCalls clock n si.2 si.1)

/-! ## Helper lemmas about the dispatcher -/

/-- A fresh file produces a cache hit. -/
theorem cacheHit_some (fs : FSState) (now : Int) (p content : String) (mtime secs : Int)
    (hpne : pyStrTruthy p = true) (hfind : fsFind fs p = some (content, mtime))
    (hfresh : now - mtime < secs) :
    cacheHit fs now (some p) secs false = some content := by
  simp [cacheHit, hpne, hfind, hfresh]

/-- A missing file can never produce a cache hit. -/
theorem cacheHit_none_of_find_none (fs : FSState) (now : Int) (p : String)
    (secs : Int) (refresh : Bool) (hfind : fsFind fs p = none) :
    cacheHit fs now (some p) secs refresh = none := by
  simp [cacheHit, hfind]

/-- `refresh=True` can never produce a cache hit. -/
theorem cacheHit_none_of_refresh (fs : FSState) (now : Int)
    (cache_file : Option String) (secs : Int) :
    cacheHit fs now cache_file secs true = none := by
  unfold cacheHit
  cases cache_file <;> simp

/-- On a fresh hit, `api` returns the stored bytes decoded by
`pd.read_csv`, leaves the filesystem unchanged and performs no
effects. -/
theorem api_hit (c : APICache) (env : Env) (fs : FSState) (provider name : String)
    (kwargs : Kwargs) (prov : Provider) (t : Endpoint) (p content : String) (mtime : Int)
    (hp : alget c.providers provider = some prov)
    (ht : alget prov.api_list name = some t)
    (hcf : computeCacheFile t name kwargs = .ok (some p))
    (hpne : pyStrTruthy p = true)
    (hfind : fsFind fs p = some (content, mtime))
    (hfresh : env.now - mtime < t.cache_secs) :
    api c env fs provider name false kwargs = .ok (some (read_csv content), fs, []) := by
  simp only [api, hp, ht, hcf,
    cacheHit_some fs env.now p content mtime t.cache_secs hpne hfind hfresh]

/-- On a miss, `api` is exactly the fetch-and-cache pipeline. -/
theorem api_miss (c : APICache) (env : Env) (fs : FSState) (provider name : String)
    (refresh : Bool) (kwargs : Kwargs) (prov : Provider) (t : Endpoint)
    (cf : Option String)
    (hp : alget c.providers provider = some prov)
    (ht : alget prov.api_list name = some t)
    (hcf : computeCacheFile t name kwargs = .ok cf)
    (hmiss : cacheHit fs env.now cf t.cache_secs refresh = none) :
    api c env fs provider name refresh kwargs =
      fetchAndCache c.key_chain env fs prov.throttler t cf kwargs := by
  simp only [api, hp, ht, hcf, hmiss]

/-- Looking up the path just written finds the new content and mtime. -/
theorem fsFind_fsWrite_self (fs : FSState) (p c : String) (m : Int) :
    fsFind (fsWrite fs p c m) p = some (c, m) := by
  induction fs with
  | nil => simp [fsWrite, fsFind]
  | cons e rest ih =>
    by_cases h : e.1 = p
    · simp [fsWrite, fsFind, h]
    · simp [fsWrite, fsFind, h, ih]

/-- Inversion of a successful fetch: it decoded the one response it
requested, its trace is the optional throttle followed by exactly that one
request, and the filesystem changed only by the conditional cache
write. -/
theorem fetch_ok_inv (kc : KeyChain) (env : Env) (fs : FSState) (th : Bool)
    (t : Endpoint) (cf : Option String) (kwargs : Kwargs)
    (df : Option Table) (fs' : FSState) (effs : List Effect)
    (h : fetchAndCache kc env fs th t cf kwargs = .ok (df, fs', effs)) :
    ∃ req, df = t.pandify_fn (env.http req) ∧
      effs = (if th then [Effect.throttle] else []) ++ [Effect.request req] ∧
      fs' = writeBack fs env.now cf df := by
  unfold fetchAndCache at h
  split at h
  · exact absurd h (by simp)
  simp only [Except.ok.injEq, Prod.mk.injEq] at h
  obtain ⟨h1, h2, h3⟩ := h
  subst h1
  exact ⟨_, rfl, h3.symm, h2.symm⟩

/-- No cache file means no write-back. -/
theorem writeBack_none_cf (fs : FSState) (now : Int) (df : Option Table) :
    writeBack fs now none df = fs := by
  cases df <;> rfl

/-- A failed decode means no write-back. -/
theorem writeBack_none_df (fs : FSState) (now : Int) (cf : Option String) :
    writeBack fs now cf none = fs := by
  cases cf <;> rfl

/-- The computed cache paths are truthy strings (they contain `/`). -/
theorem pyStrTruthy_joinPath (a b : String) : pyStrTruthy (joinPath a b) = true := by
  simp [pyStrTruthy, joinPath, String.data_append, List.isEmpty_iff]

/-- A cache path produced by `computeCacheFile` is truthy. -/
theorem computeCacheFile_truthy (t : Endpoint) (name : String) (kwargs : Kwargs)
    (p : String) (h : computeCacheFile t name kwargs = .ok (some p)) :
    pyStrTruthy p = true := by
  unfold computeCacheFile at h
  split at h
  · split at h
    · split at h
      · exact absurd h (by simp)
      · rw [Except.ok.injEq, Option.some.injEq] at h
        exact h ▸ pyStrTruthy_joinPath _ _
    · rw [Except.ok.injEq, Option.some.injEq] at h
      exact h ▸ pyStrTruthy_joinPath _ _
  · exact absurd h (by simp)

/-- A stale file (its age at least `cache_secs`) can never produce a
cache hit; with `cache_secs = 0` this covers every file not stamped in
the future. -/
theorem cacheHit_none_of_stale (fs : FSState) (now : Int) (p content : String)
    (mtime secs : Int) (refresh : Bool)
    (hfind : fsFind fs p = some (content, mtime)) (hold : secs ≤ now - mtime) :
    cacheHit fs now (some p) secs refresh = none := by
  simp only [cacheHit, hfind]
  split
  · simp [hfind, not_lt.mpr hold]
  · rfl

/-- The trace of a fetch holds exactly one network request. -/
theorem numRequests_fetch (th : Bool) (req : Req) :
    numRequests ((if th then [Effect.throttle] else []) ++ [Effect.request req]) = 1 := by
  cases th <;> rfl

/-- Disabling the cache (no cache directory, hence no cache file) changes
neither the decoded result nor the effect trace of a fetch; it only
removes the write-back. -/
theorem fetch_no_cache (kc : KeyChain) (env : Env) (fs : FSState) (th : Bool)
    (t : Endpoint) (cf : Option String) (kwargs : Kwargs)
    (df : Option Table) (fs' : FSState) (effs : List Effect)
    (h : fetchAndCache kc env fs th t cf kwargs = .ok (df, fs', effs)) :
    fetchAndCache kc env fs th { t with cache_dir := none } none kwargs =
      .ok (df, fs, effs) := by
  have hbr : buildRequest kc ({ t with cache_dir := none }) kwargs =
      buildRequest kc t kwargs := rfl
  unfold fetchAndCache at h ⊢
  rw [hbr]
  cases hb : buildRequest kc t kwargs with
  | error e => rw [hb] at h; exact absurd h (by simp)
  | ok req =>
    rw [hb] at h
    simp only [Except.ok.injEq, Prod.mk.injEq] at h ⊢
    obtain ⟨h1, h2, h3⟩ := h
    exact ⟨h1, writeBack_none_cf fs env.now _, h3⟩

/-! ## Concrete fixtures used by witnesses and counterexamples -/

/-- A minimal registered endpoint: no url/data params, echo decoder,
60-second lifetime, usable cache directory `d`, no cache field (so the
endpoint name is the cache identity). -/
def okEp : Endpoint :=
  { url := "u", method := "GET", cache_field := none,
    pandify_fn := fun s => some [[s]], url_params := [], data := none,
    data_params := [], key_map := [], cache_secs := 60, cache_dir := some "d" }

/-- A provider holding the single endpoint `q`. -/
def provOf (e : Endpoint) : Provider :=
  { base_url := "", cache_dir := some "dp", throttler := true,
    api_list := [("q", e)] }

/-- An `APICache` with provider `P` holding endpoint `q` and an empty key
chain. -/
def cacheOf (e : Endpoint) : APICache :=
  { cache_path := some "root", key_chain := [], providers := [("P", provOf e)] }

/-- An environment whose transport always answers `"A"`. -/
def envAt (n : Int) : Env := { now := n, http := fun _ => "A" }

/-- The request the fixture endpoint sends. -/
def reqU : Req := { method := "GET", url := "u", jsonBody := none, params := [] }

/-- The fixture endpoint with a decoder that ignores its input and
returns the table `[["X"]]` — distinguishing the registered decoder from
the CSV reader. -/
def xEp : Endpoint := { okEp with pandify_fn := fun _ => some [["X"]] }

/-- The fixture endpoint with `cache_secs = 0`. -/
def zeroEp : Endpoint := { okEp with cache_secs := 0 }

/-- The fixture endpoint with a decoder that always reports `NoData`. -/
def noneEp : Endpoint := { okEp with pandify_fn := fun _ => none }

/-- A truthy optional string is `some` of its own default-extraction. -/
theorem optStrTruthy_eq_some (o : Option String) (h : optStrTruthy o = true) :
    o = some (o.getD "") := by
  cases o with
  | none => simp [optStrTruthy] at h
  | some s => rfl

/-! ## Claims -/

/-- C1, counterexample: on a fresh cache hit the returned table is the
stored bytes read back by `pd.read_csv`, which differs from the endpoint's
registered decoder applied to those same stored bytes: here the stored
bytes are `"A"`, the call returns `[["A"]]`, but `pandify_fn "A"` is
`[["X"]]`. -/
theorem C1_counterexample :
    api (cacheOf xEp) (envAt 100) [("d/q.csv", "A", 50)] "P" "q" false [] =
      .ok (some [["A"]], [("d/q.csv", "A", 50)], []) ∧
    fsFind [("d/q.csv", "A", 50)] "d/q.csv" = some ("A", 50) ∧
    xEp.pandify_fn "A" = some [["X"]] ∧
    some [["A"]] ≠ xEp.pandify_fn "A" :=
  ⟨rfl, rfl, rfl, by decide⟩

/-- C1 (amended): a fresh cache hit returns the stored bytes decoded by
the CSV reader `pd.read_csv` — not by the endpoint's registered
`pandify_fn` — leaving the filesystem unchanged and performing no
effects. -/
theorem C1_hit_uses_read_csv (c : APICache) (env : Env) (fs : FSState)
    (provider name : String) (kwargs : Kwargs) (prov : Provider) (t : Endpoint)
    (p content : String) (mtime : Int)
    (hp : alget c.providers provider = some prov)
    (ht : alget prov.api_list name = some t)
    (hcf : computeCacheFile t name kwargs = .ok (some p))
    (hfind : fsFind fs p = some (content, mtime))
    (hfresh : env.now - mtime < t.cache_secs) :
    api c env fs provider name false kwargs = .ok (some (read_csv content), fs, []) :=
  api_hit c env fs provider name kwargs prov t p content mtime hp ht hcf
    (computeCacheFile_truthy t name kwargs p hcf) hfind hfresh

/-- C1 witness: the amended theorem applied to the fixture. -/
theorem C1_witness :
    api (cacheOf okEp) (envAt 100) [("d/q.csv", "B", 50)] "P" "q" false [] =
      .ok (some (read_csv "B"), [("d/q.csv", "B", 50)], []) :=
  C1_hit_uses_read_csv (cacheOf okEp) (envAt 100) [("d/q.csv", "B", 50)] "P" "q" []
    (provOf okEp) okEp "d/q.csv" "B" 50 rfl rfl rfl rfl (by decide)

/-- C10: a fresh cache hit is effect-free — the trace is empty (no
throttle permit consumed, no network request), the filesystem is
unchanged, and the key chain is never consulted: the call succeeds with
the same result under every key chain whatsoever. -/
theorem C10_hit_frame (c : APICache) (env : Env) (fs : FSState)
    (provider name : String) (kwargs : Kwargs) (prov : Provider) (t : Endpoint)
    (p content : String) (mtime : Int)
    (hp : alget c.providers provider = some prov)
    (ht : alget prov.api_list name = some t)
    (hcf : computeCacheFile t name kwargs = .ok (some p))
    (hfind : fsFind fs p = some (content, mtime))
    (hfresh : env.now - mtime < t.cache_secs) :
    api c env fs provider name false kwargs = .ok (some (read_csv content), fs, []) ∧
    ∀ kc' : KeyChain,
      api { c with key_chain := kc' } env fs provider name false kwargs =
        .ok (some (read_csv content), fs, []) := by
  have hpne := computeCacheFile_truthy t name kwargs p hcf
  exact ⟨api_hit c env fs provider name kwargs prov t p content mtime hp ht hcf hpne hfind hfresh,
    fun kc' => api_hit { c with key_chain := kc' } env fs provider name kwargs prov t
      p content mtime hp ht hcf hpne hfind hfresh⟩

/-- C10 witness: the hit is effect-free on the fixture, in particular
under a key chain holding only a null secret. -/
theorem C10_witness :
    api (cacheOf okEp) (envAt 100) [("d/q.csv", "B", 50)] "P" "q" false [] =
      .ok (some (read_csv "B"), [("d/q.csv", "B", 50)], []) ∧
    api { cacheOf okEp with key_chain := [("TDA", none)] } (envAt 100)
        [("d/q.csv", "B", 50)] "P" "q" false [] =
      .ok (some (read_csv "B"), [("d/q.csv", "B", 50)], []) :=
  ⟨(C10_hit_frame (cacheOf okEp) (envAt 100) [("d/q.csv", "B", 50)] "P" "q" []
      (provOf okEp) okEp "d/q.csv" "B" 50 rfl rfl rfl rfl (by decide)).1,
   (C10_hit_frame (cacheOf okEp) (envAt 100) [("d/q.csv", "B", 50)] "P" "q" []
      (provOf okEp) okEp "d/q.csv" "B" 50 rfl rfl rfl rfl (by decide)).2 [("TDA", none)]⟩

/-- C6: when the registered decoder reports `NoData` (returns `None`),
`api` returns it as a normal result (no exception), leaves the
filesystem unchanged (no cache file created or modified), and its trace
shows the one request made. -/
theorem C6_nodata_not_cached (c : APICache) (env : Env) (fs : FSState)
    (provider name : String) (refresh : Bool) (kwargs : Kwargs)
    (prov : Provider) (t : Endpoint) (cf : Option String) (req : Req)
    (hp : alget c.providers provider = some prov)
    (ht : alget prov.api_list name = some t)
    (hcf : computeCacheFile t name kwargs = .ok cf)
    (hmiss : cacheHit fs env.now cf t.cache_secs refresh = none)
    (hreq : buildRequest c.key_chain t kwargs = .ok req)
    (hnodata : t.pandify_fn (env.http req) = none) :
    api c env fs provider name refresh kwargs =
      .ok (none, fs,
        (if prov.throttler then [Effect.throttle] else []) ++ [Effect.request req]) := by
  rw [api_miss c env fs provider name refresh kwargs prov t cf hp ht hcf hmiss]
  unfold fetchAndCache
  simp only [hreq, hnodata, writeBack_none_df]

/-- C6 witness: the fixture endpoint whose decoder always returns
`None`. -/
theorem C6_witness :
    api (cacheOf noneEp) (envAt 100) [] "P" "q" false [] =
      .ok (none, [], (if (provOf noneEp).throttler then [Effect.throttle] else [])
        ++ [Effect.request reqU]) :=
  C6_nodata_not_cached (cacheOf noneEp) (envAt 100) [] "P" "q" false []
    (provOf noneEp) noneEp (some "d/q.csv") reqU rfl rfl rfl rfl rfl rfl

/-- C5, counterexample: with `cache_secs = 0` the cache read does NOT
always miss — a cache file whose mtime (10) lies in the future of the
clock (5) makes `now - mtime < 0 = cache_secs` true, so the call is
served from the cache with an empty trace: no network request is
issued. -/
theorem C5_counterexample :
    zeroEp.cache_secs = 0 ∧
    api (cacheOf zeroEp) (envAt 5) [("d/q.csv", "A", 10)] "P" "q" false [] =
      .ok (some [["A"]], [("d/q.csv", "A", 10)], []) ∧
    numRequests [] = 0 :=
  ⟨rfl, rfl, rfl⟩

/-- C5 (amended): `refresh=True` always bypasses the cache read and runs
the fetch pipeline; `cache_secs = 0` does so whenever the file's mtime is
not in the future (`mtime ≤ now`); and a successful fetch overwrites the
cache file and issues exactly one request. -/
theorem C5_refresh_and_zero_ttl (c : APICache) (env : Env) (fs : FSState)
    (provider name : String) (kwargs : Kwargs) (prov : Provider) (t : Endpoint)
    (p content : String) (mtime : Int)
    (hp : alget c.providers provider = some prov)
    (ht : alget prov.api_list name = some t)
    (hcf : computeCacheFile t name kwargs = .ok (some p)) :
    (api c env fs provider name true kwargs =
      fetchAndCache c.key_chain env fs prov.throttler t (some p) kwargs) ∧
    (t.cache_secs = 0 → fsFind fs p = some (content, mtime) → mtime ≤ env.now →
      api c env fs provider name false kwargs =
        fetchAndCache c.key_chain env fs prov.throttler t (some p) kwargs) ∧
    (∀ df fs1 effs,
      fetchAndCache c.key_chain env fs prov.throttler t (some p) kwargs =
        .ok (some df, fs1, effs) →
      fs1 = fsWrite fs p (to_csv df) env.now ∧ numRequests effs = 1) := by
  have hpne := computeCacheFile_truthy t name kwargs p hcf
  refine ⟨?_, ?_, ?_⟩
  · exact api_miss c env fs provider name true kwargs prov t (some p) hp ht hcf
      (cacheHit_none_of_refresh fs env.now (some p) t.cache_secs)
  · intro h0 hfind hle
    exact api_miss c env fs provider name false kwargs prov t (some p) hp ht hcf
      (cacheHit_none_of_stale fs env.now p content mtime t.cache_secs false hfind
        (by omega))
  · intro df fs1 effs h
    obtain ⟨req, hdf, heffs, hfs1⟩ := fetch_ok_inv _ _ _ _ _ _ _ _ _ _ h
    constructor
    · rw [hfs1]
      simp [writeBack, hpne]
    · rw [heffs]
      exact numRequests_fetch prov.throttler req

/-- C5 witness: the amended theorem on the zero-lifetime fixture with a
past-stamped file and, for the overwrite conjunct, the concrete fetch. -/
theorem C5_witness :
    (api (cacheOf zeroEp) (envAt 100) [("d/q.csv", "A", 10)] "P" "q" false [] =
      fetchAndCache [] (envAt 100) [("d/q.csv", "A", 10)] true zeroEp
        (some "d/q.csv") []) ∧
    (([("d/q.csv", "A", 100)] : FSState) =
        fsWrite [("d/q.csv", "A", 10)] "d/q.csv" (to_csv [["A"]]) (envAt 100).now ∧
      numRequests [Effect.throttle, Effect.request reqU] = 1) :=
  ⟨(C5_refresh_and_zero_ttl (cacheOf zeroEp) (envAt 100) [("d/q.csv", "A", 10)]
      "P" "q" [] (provOf zeroEp) zeroEp "d/q.csv" "A" 10 rfl rfl rfl).2.1
      rfl rfl (by decide),
   (C5_refresh_and_zero_ttl (cacheOf zeroEp) (envAt 100) [("d/q.csv", "A", 10)]
      "P" "q" [] (provOf zeroEp) zeroEp "d/q.csv" "A" 10 rfl rfl rfl).2.2
      [["A"]] [("d/q.csv", "A", 100)] [Effect.throttle, Effect.request reqU] rfl⟩

/-- C2: with a positive lifetime and a usable cache file path not yet
present on disk, a first successful call fetches (its trace holds exactly
one request) and a second call with identical args within `cache_secs`
is a pure cache hit: it returns the identical table (given the CSV
round-trip of the serializer pair) with an empty trace — no second
request. -/
theorem C2_second_call_cache_hit (c : APICache) (env1 env2 : Env) (fs : FSState)
    (provider name : String) (kwargs : Kwargs) (prov : Provider) (t : Endpoint)
    (p : String) (df : Table) (fs1 : FSState) (effs1 : List Effect)
    (hp : alget c.providers provider = some prov)
    (ht : alget prov.api_list name = some t)
    (hsecs : 0 < t.cache_secs)
    (hcf : computeCacheFile t name kwargs = .ok (some p))
    (hnofile : fsFind fs p = none)
    (h1 : api c env1 fs provider name false kwargs = .ok (some df, fs1, effs1))
    (hrt : read_csv (to_csv df) = df)
    (hwithin : env2.now - env1.now < t.cache_secs) :
    api c env2 fs1 provider name false kwargs = .ok (some df, fs1, []) ∧
    numRequests effs1 = 1 := by
  have hpne := computeCacheFile_truthy t name kwargs p hcf
  have hmiss := cacheHit_none_of_find_none fs env1.now p t.cache_secs false hnofile
  rw [api_miss c env1 fs provider name false kwargs prov t (some p) hp ht hcf hmiss] at h1
  obtain ⟨req, hdf, heffs, hfs1⟩ := fetch_ok_inv _ _ _ _ _ _ _ _ _ _ h1
  have hfs1' : fs1 = fsWrite fs p (to_csv df) env1.now := by
    rw [hfs1]
    simp [writeBack, hpne]
  constructor
  · have hhit := api_hit c env2 fs1 provider name kwargs prov t p (to_csv df) env1.now
      hp ht hcf hpne (by rw [hfs1']; exact fsFind_fsWrite_self fs p (to_csv df) env1.now)
      hwithin
    rw [hrt] at hhit
    exact hhit
  · rw [heffs]
    exact numRequests_fetch prov.throttler req

/-- C2 witness: the fixture endpoint called at time 100 and again at time
130 (within the 60-second lifetime). -/
theorem C2_witness :
    api (cacheOf okEp) (envAt 130) [("d/q.csv", "A", 100)] "P" "q" false [] =
      .ok (some [["A"]], [("d/q.csv", "A", 100)], []) ∧
    numRequests [Effect.throttle, Effect.request reqU] = 1 :=
  C2_second_call_cache_hit (cacheOf okEp) (envAt 100) (envAt 130) [] "P" "q" []
    (provOf okEp) okEp "d/q.csv" [["A"]] [("d/q.csv", "A", 100)]
    [Effect.throttle, Effect.request reqU]
    rfl rfl (by decide) rfl rfl rfl (by decide) (by decide)

/-- The cache-file computation of `api` (lines 162–169) exposed as a
function of the `APICache`: provider and endpoint resolution followed by
`computeCacheFile`. It is the path every subsequent read and write of the
call uses. -/
def apiCachePath (c : APICache) (provider name : String) (kwargs : Kwargs) :
    Option (Except ApiError (Option String)) :=
  match alget c.providers provider with
  | none => none
  | some prov =>
    match alget prov.api_list name with
    | none => none
    | some t => some (computeCacheFile t name kwargs)

/-- C3: the cache path depends only on the provider resolution, endpoint
name, `cache_field`/`cache_dir` and the caller's kwargs — replacing the
whole KeyChain or the endpoint's `key_map` never changes it (so no
KeyChain secret can flow into it), and every computed path decomposes as
`cache_dir/<identity>.csv` with the identity drawn from the `cache_field`
kwarg or the endpoint name. -/
theorem C3_cache_path_secret_free (c : APICache) (provider : String)
    (t : Endpoint) (name : String) (kwargs : Kwargs) :
    (∀ kc' : KeyChain,
      apiCachePath { c with key_chain := kc' } provider name kwargs =
        apiCachePath c provider name kwargs) ∧
    (∀ km' : List (String × String),
      computeCacheFile { t with key_map := km' } name kwargs =
        computeCacheFile t name kwargs) ∧
    (∀ p : String, computeCacheFile t name kwargs = .ok (some p) →
      ∃ d ident, t.cache_dir = some d ∧ p = joinPath d (ident ++ ".csv") ∧
        ((∃ f, t.cache_field = some f ∧ alget kwargs f = some ident) ∨
         (optStrTruthy t.cache_field = false ∧ ident = name))) := by
  refine ⟨fun kc' => rfl, fun km' => rfl, fun p hp => ?_⟩
  unfold computeCacheFile at hp
  split at hp
  · rename_i hdir
    split at hp
    · rename_i hfield
      cases hget : alget kwargs (t.cache_field.getD "") with
      | none => rw [hget] at hp; exact absurd hp (by simp)
      | some v =>
        rw [hget] at hp
        rw [Except.ok.injEq, Option.some.injEq] at hp
        exact ⟨t.cache_dir.getD "", v, optStrTruthy_eq_some t.cache_dir hdir, hp.symm,
          Or.inl ⟨t.cache_field.getD "", optStrTruthy_eq_some t.cache_field hfield, hget⟩⟩
    · rename_i hfield
      rw [Except.ok.injEq, Option.some.injEq] at hp
      exact ⟨t.cache_dir.getD "", name, optStrTruthy_eq_some t.cache_dir hdir, hp.symm,
        Or.inr ⟨by simpa using hfield, rfl⟩⟩
  · exact absurd hp (by simp)

/-- C3 witness: on the fixture, swapping in a key chain holding a secret
changes nothing, and the computed path decomposes as
`d/q.csv = cache_dir/<endpoint-name>.csv`. -/
theorem C3_witness :
    apiCachePath { cacheOf okEp with key_chain := [("TDA", some "SECRET")] }
        "P" "q" [] = apiCachePath (cacheOf okEp) "P" "q" [] ∧
    (∃ d ident, okEp.cache_dir = some d ∧ "d/q.csv" = joinPath d (ident ++ ".csv") ∧
      ((∃ f, okEp.cache_field = some f ∧ alget [] f = some ident) ∨
       (optStrTruthy okEp.cache_field = false ∧ ident = "q"))) :=
  ⟨(C3_cache_path_secret_free (cacheOf okEp) "P" okEp "q" []).1 [("TDA", some "SECRET")],
   (C3_cache_path_secret_free (cacheOf okEp) "P" okEp "q" []).2.2 "d/q.csv" rfl⟩

/-- C4: for a call that misses the cache and fetches successfully,
disabling caching (no cache directory on the endpoint) yields the same
decoded table and the same effect trace (same single request); the only
difference is that the filesystem is left untouched. -/
theorem C4_cache_advisory (c c' : APICache) (env : Env) (fs : FSState)
    (provider name : String) (refresh : Bool) (kwargs : Kwargs)
    (prov prov' : Provider) (t : Endpoint) (cf : Option String)
    (df : Table) (fs1 : FSState) (effs : List Effect)
    (hp : alget c.providers provider = some prov)
    (ht : alget prov.api_list name = some t)
    (hp' : alget c'.providers provider = some prov')
    (ht' : alget prov'.api_list name = some { t with cache_dir := none })
    (hth : prov'.throttler = prov.throttler)
    (hkc : c'.key_chain = c.key_chain)
    (hcf : computeCacheFile t name kwargs = .ok cf)
    (hmiss : cacheHit fs env.now cf t.cache_secs refresh = none)
    (h1 : api c env fs provider name refresh kwargs = .ok (some df, fs1, effs)) :
    api c' env fs provider name refresh kwargs = .ok (some df, fs, effs) := by
  rw [api_miss c env fs provider name refresh kwargs prov t cf hp ht hcf hmiss] at h1
  have hcf' : computeCacheFile { t with cache_dir := none } name kwargs = .ok none := rfl
  have hmiss' : cacheHit fs env.now none
      ({ t with cache_dir := none } : Endpoint).cache_secs refresh = none := rfl
  rw [api_miss c' env fs provider name refresh kwargs prov' _ none hp' ht' hcf' hmiss']
  rw [hkc, hth]
  exact fetch_no_cache _ _ _ _ _ _ _ _ _ _ h1

/-- C4 witness: the fixture endpoint with and without its cache
directory: same table, same single-request trace, no write. -/
theorem C4_witness :
    api (cacheOf { okEp with cache_dir := none }) (envAt 100) [] "P" "q" false [] =
      .ok (some [["A"]], [], [Effect.throttle, Effect.request reqU]) :=
  C4_cache_advisory (cacheOf okEp) (cacheOf { okEp with cache_dir := none })
    (envAt 100) [] "P" "q" false [] (provOf okEp)
    (provOf { okEp with cache_dir := none }) okEp (some "d/q.csv") [["A"]]
    [("d/q.csv", "A", 100)] [Effect.throttle, Effect.request reqU]
    rfl rfl rfl rfl rfl rfl rfl rfl rfl

/-! ## Helper lemmas about the throttlers -/

/-- With the clock frozen at `t0` (back-to-back calls) and at least `n`
tokens in the bucket, `n` calls all return without sleeping, each
deducting exactly one token. -/
theorem bucketCalls_no_sleep (M r t0 : ℚ) :
    ∀ (n i : ℕ) (b : ℚ), (n : ℚ) ≤ b → b ≤ M →
      bucketCalls (fun _ => t0) n i ⟨M, b, r, t0⟩ = some (⟨M, b - n, r, t0⟩, i + n) := by
  intro n
  induction n with
  | zero =>
    intro i b hn hM
    rw [bucketCalls]
    norm_num
  | succ n ih =>
    intro i b hn hM
    have hcast : ((n : ℚ)) + 1 ≤ b := by push_cast at hn; linarith
    have h1 : (1 : ℚ) ≤ b := by
      have := Nat.cast_nonneg (α := ℚ) n
      linarith
    have hstep : LazyTokenBucket.throttleFuel (fun _ => t0) 1 i ⟨M, b, r, t0⟩ =
        some (⟨M, b - 1, r, t0⟩, i + 1) := by
      unfold LazyTokenBucket.throttleFuel
      simp only [LazyTokenBucket.refill]
      norm_num
      rw [if_neg (not_lt.mpr hM), if_neg (not_lt.mpr h1)]
    rw [bucketCalls, hstep]
    show bucketCalls (fun _ => t0) n (i + 1) ⟨M, b - 1, r, t0⟩ = _
    rw [ih (i + 1) (b - 1) (by linarith) (by linarith)]
    have e1 : b - 1 - (n : ℚ) = b - ((n + 1 : ℕ) : ℚ) := by push_cast; ring
    have e2 : i + 1 + n = i + (n + 1) := by omega
    rw [e1, e2]

/-- Termination of the retry loop: with positive rate, capacity at least
one token, a clock that never runs backwards and advances by at least one
second across each sleep, and enough iterations `m` that the refills can
reach one token, `throttle` returns within `m+1` iterations (hence after
at most `m` sleeps), having consumed one clock reading per iteration. -/
theorem bucket_terminates (clock : Nat → ℚ) :
    ∀ (m i : ℕ) (s : LazyTokenBucket), 0 < s.r → 1 ≤ s.M →
      s.last ≤ clock i → (∀ j, i ≤ j → clock j + 1 ≤ clock (j + 1)) →
      (1 : ℚ) ≤ s.b + s.r * (clock i - s.last) + m * s.r →
      ∃ s' jn, LazyTokenBucket.throttleFuel clock (m + 1) i s = some (s', jn) ∧
        i + 1 ≤ jn := by
  intro m
  induction m with
  | zero =>
    intro i s hr hM hlast hstep hbound
    rw [Nat.cast_zero, zero_mul, add_zero] at hbound
    have hb2 : ¬ (s.refill (clock i)).b < 1 := by
      show ¬ (if s.b + s.r * (clock i - s.last) > s.M then s.M
              else s.b + s.r * (clock i - s.last)) < 1
      split
      · linarith
      · linarith
    refine ⟨{ s.refill (clock i) with b := (s.refill (clock i)).b - 1 }, i + 1,
      ?_, le_refl _⟩
    simp only [LazyTokenBucket.throttleFuel]
    rw [if_neg hb2]
  | succ m ih =>
    intro i s hr hM hlast hstep hbound
    by_cases hcap : s.b + s.r * (clock i - s.last) > s.M
    · have hb2 : ¬ (s.refill (clock i)).b < 1 := by
        show ¬ (if s.b + s.r * (clock i - s.last) > s.M then s.M
                else s.b + s.r * (clock i - s.last)) < 1
        rw [if_pos hcap]
        linarith
      refine ⟨{ s.refill (clock i) with b := (s.refill (clock i)).b - 1 }, i + 1,
        ?_, le_refl _⟩
      simp only [LazyTokenBucket.throttleFuel]
      rw [if_neg hb2]
    · by_cases hge : (1 : ℚ) ≤ s.b + s.r * (clock i - s.last)
      · have hb2 : ¬ (s.refill (clock i)).b < 1 := by
          show ¬ (if s.b + s.r * (clock i - s.last) > s.M then s.M
                  else s.b + s.r * (clock i - s.last)) < 1
          rw [if_neg hcap]
          linarith
        refine ⟨{ s.refill (clock i) with b := (s.refill (clock i)).b - 1 }, i + 1,
          ?_, le_refl _⟩
        simp only [LazyTokenBucket.throttleFuel]
        rw [if_neg hb2]
      · have hfields : s.refill (clock i) =
            ⟨s.M, s.b + s.r * (clock i - s.last), s.r, clock i⟩ := by
          simp only [LazyTokenBucket.refill]
          rw [if_neg hcap]
        have hΔ : clock i + 1 ≤ clock (i + 1) := hstep i (le_refl i)
        have hmono : s.r * 1 ≤ s.r * (clock (i + 1) - clock i) :=
          mul_le_mul_of_nonneg_left (by linarith) (le_of_lt hr)
        obtain ⟨s', jn, hrun, hjn⟩ := ih (i + 1)
          ⟨s.M, s.b + s.r * (clock i - s.last), s.r, clock i⟩
          hr hM (by linarith) (fun j hj => hstep j (by omega))
          (by push_cast at hbound ⊢; linarith)
        have hb2 : (s.refill (clock i)).b < 1 := by
          rw [hfields]
          exact not_le.mp hge
        refine ⟨s', jn, ?_, by omega⟩
        simp only [LazyTokenBucket.throttleFuel]
        rw [if_pos hb2, hfields]
        exact hrun

/-- A bucket whose capacity is below one token starves: refills are
capped at `M < 1`, so the retry loop never returns, whatever the clock
does. -/
theorem bucket_starved (clock : Nat → ℚ) :
    ∀ (fuel i : ℕ) (s : LazyTokenBucket), s.M < 1 →
      LazyTokenBucket.throttleFuel clock fuel i s = none := by
  intro fuel
  induction fuel with
  | zero => intro i s h; rfl
  | succ fuel ih =>
    intro i s h
    unfold LazyTokenBucket.throttleFuel
    rw [if_pos]
    · exact ih (i + 1) (s.refill (clock i)) h
    · show (if s.b + s.r * (clock i - s.last) > s.M then s.M
            else s.b + s.r * (clock i - s.last)) < 1
      split
      · exact h
      · rename_i hc
        have := not_lt.mp hc
        linarith

/-- Counting-throttler burst: starting at any count, `k` calls that keep
the counter within the bound sleep zero seconds in total and just count
up. -/
theorem crudeCalls_no_sleep (m : Int) :
    ∀ (k : Nat) (c0 : Int), c0 + k ≤ m →
      crudeCalls k ⟨m, c0⟩ = (⟨m, c0 + k⟩, 0) := by
  intro k
  induction k with
  | zero => intro c0 h; simp [crudeCalls]
  | succ k ih =>
    intro c0 h
    have hle : c0 + 1 + (k : Int) ≤ m := by push_cast at h; omega
    have hc : ¬ (c0 + 1 > m) := by push_cast at h; omega
    have hstep : (⟨m, c0⟩ : CrudeThrottler).throttle = (⟨m, c0 + 1⟩, 0) := by
      show (if c0 + 1 > m then ((⟨m, 0⟩ : CrudeThrottler), (60 : Int))
            else (⟨m, c0 + 1⟩, 0)) = (⟨m, c0 + 1⟩, 0)
      rw [if_neg hc]
    rw [crudeCalls]
    simp only [hstep, ih (c0 + 1) hle]
    have e1 : c0 + 1 + (k : Int) = c0 + ((k : Nat) + 1 : Nat) := by push_cast; omega
    rw [e1]
    norm_num

/-- C8: from a zero counter, a burst of `m` calls through the counting
throttler sleeps zero seconds in total and leaves the counter at `m`; the
`(m+1)`-th call then blocks for the fixed 60-second interval and resets
the counter to 0. -/
theorem C8_crude_counter (m : ℕ) :
    crudeCalls m ⟨(m : Int), 0⟩ = (⟨(m : Int), (m : Int)⟩, 0) ∧
    CrudeThrottler.throttle ⟨(m : Int), (m : Int)⟩ = (⟨(m : Int), 0⟩, 60) := by
  constructor
  · have h := crudeCalls_no_sleep (m : Int) m 0 (by omega)
    simpa using h
  · show (if (m : Int) + 1 > (m : Int) then ((⟨(m : Int), 0⟩ : CrudeThrottler), (60 : Int))
          else (⟨(m : Int), (m : Int) + 1⟩, 0)) = (⟨(m : Int), 0⟩, 60)
    rw [if_pos (by omega)]

/-- C7: from a full bucket of integer capacity `c ≥ 1`, `c` back-to-back
`throttle()` calls (frozen clock) all return without sleeping, draining
the bucket to 0 tokens; the `(c+1)`-th call cannot return without
sleeping (fuel 1 fails), and under a clock advancing one second per sleep
it does return after at least one sleep (its final clock index is at
least 2). -/
theorem C7_token_bucket (c : ℕ) (t0 : ℚ) (hc : 1 ≤ c) :
    bucketCalls (fun _ => t0) c 0 (LazyTokenBucket.init c t0) =
      some (⟨(c : ℚ), 0, (c : ℚ) / 60, t0⟩, c) ∧
    LazyTokenBucket.throttleFuel (fun _ => t0) 1 c ⟨(c : ℚ), 0, (c : ℚ) / 60, t0⟩ =
      none ∧
    ∃ fuel s' j, LazyTokenBucket.throttleFuel (fun k => t0 + (k : ℚ)) fuel 0
        ⟨(c : ℚ), 0, (c : ℚ) / 60, t0⟩ = some (s', j) ∧ 2 ≤ j := by
  have hc0 : (0 : ℚ) < (c : ℚ) := by exact_mod_cast Nat.pos_of_ne_zero (by omega)
  have hcM : (1 : ℚ) ≤ (c : ℚ) := by exact_mod_cast hc
  have hr : (0 : ℚ) < (c : ℚ) / 60 := by positivity
  refine ⟨?_, ?_, ?_⟩
  · have hinit : LazyTokenBucket.init (c : ℚ) t0 =
        ⟨(c : ℚ), (c : ℚ), (c : ℚ) / 60, t0⟩ := rfl
    have h := bucketCalls_no_sleep (c : ℚ) ((c : ℚ) / 60) t0 c 0 (c : ℚ)
      (le_refl _) (le_refl _)
    rw [hinit, h]
    norm_num
  · have hb1 : ((0 : ℚ) + (c : ℚ) / 60 * (t0 - t0)) = 0 := by ring
    simp only [LazyTokenBucket.throttleFuel, LazyTokenBucket.refill]
    rw [hb1, if_neg (not_lt.mpr (le_of_lt hc0)), if_pos (by norm_num : (0:ℚ) < 1)]
  · have hs1 : (⟨(c : ℚ), 0, (c : ℚ) / 60, t0⟩ : LazyTokenBucket).refill
        (t0 + ((0 : ℕ) : ℚ)) = ⟨(c : ℚ), 0, (c : ℚ) / 60, t0 + ((0 : ℕ) : ℚ)⟩ := by
      simp only [LazyTokenBucket.refill]
      have hb1 : ((0 : ℚ) + (c : ℚ) / 60 * (t0 + ((0 : ℕ) : ℚ) - t0)) = 0 := by
        push_cast
        ring
      rw [hb1, if_neg (not_lt.mpr (le_of_lt hc0))]
    have hbound : (1 : ℚ) ≤ (0 : ℚ) + (c : ℚ) / 60 *
        ((t0 + ((1 : ℕ) : ℚ)) - (t0 + ((0 : ℕ) : ℚ))) + (60 : ℕ) * ((c : ℚ) / 60) := by
      have h60 : ((60 : ℕ) : ℚ) * ((c : ℚ) / 60) = (c : ℚ) := by
        push_cast
        ring
      have hrr := le_of_lt hr
      push_cast at h60 ⊢
      nlinarith
    obtain ⟨s', jn, hrun, hjn⟩ := bucket_terminates (fun k => t0 + (k : ℚ)) 60 1
      ⟨(c : ℚ), 0, (c : ℚ) / 60, t0 + ((0 : ℕ) : ℚ)⟩ hr hcM
      (by push_cast; linarith) (fun j hj => by push_cast; linarith) hbound
    refine ⟨60 + 1 + 1, s', jn, ?_, by omega⟩
    simp only [LazyTokenBucket.throttleFuel]
    rw [hs1, if_pos (by norm_num : (0:ℚ) < 1)]
    exact hrun

/-- C7 witness: the token bucket of capacity 2. -/
theorem C7_witness :
    bucketCalls (fun _ => (0 : ℚ)) 2 0 (LazyTokenBucket.init ((2 : ℕ) : ℚ) 0) =
      some (⟨((2 : ℕ) : ℚ), 0, ((2 : ℕ) : ℚ) / 60, 0⟩, 2) ∧
    LazyTokenBucket.throttleFuel (fun _ => (0 : ℚ)) 1 2
      ⟨((2 : ℕ) : ℚ), 0, ((2 : ℕ) : ℚ) / 60, 0⟩ = none ∧
    ∃ fuel s' j, LazyTokenBucket.throttleFuel (fun k => (0 : ℚ) + (k : ℚ)) fuel 0
        ⟨((2 : ℕ) : ℚ), 0, ((2 : ℕ) : ℚ) / 60, 0⟩ = some (s', j) ∧ 2 ≤ j :=
  C7_token_bucket 2 0 (by norm_num)

/-- C9, counterexample: the claim's stated assumption (positive refill
rate) does not suffice for termination: a bucket of capacity 1/2 has
positive rate, yet its refill is capped at `M = 1/2 < 1` token, so the
retry loop never returns even under a perfectly advancing clock. -/
theorem C9_counterexample :
    0 < (LazyTokenBucket.init (1 / 2) 0).r ∧
    ¬ ∃ (fuel : ℕ) (res : LazyTokenBucket × ℕ),
      LazyTokenBucket.throttleFuel (fun k => (k : ℚ)) fuel 0
        (LazyTokenBucket.init (1 / 2) 0) = some res := by
  constructor
  · norm_num [LazyTokenBucket.init]
  · rintro ⟨fuel, res, h⟩
    rw [bucket_starved (fun k => (k : ℚ)) fuel 0 _
      (by norm_num [LazyTokenBucket.init])] at h
    exact Option.noConfusion h

/-- C9 (amended): `acquire()` always terminates and succeeds provided the
bucket holds at least one token at capacity (`M ≥ 1`) — in addition to
the claim's positive rate and monotone clock (never running backwards,
advancing at least one second per sleep); the counting variant always
returns after either no sleep or a single fixed 60-second sleep. -/
theorem C9_acquire_terminates :
    (∀ (clock : Nat → ℚ) (i : ℕ) (s : LazyTokenBucket),
      0 < s.r → 1 ≤ s.M → s.last ≤ clock i →
      (∀ j, i ≤ j → clock j + 1 ≤ clock (j + 1)) →
      ∃ fuel s' jn, LazyTokenBucket.throttleFuel clock fuel i s = some (s', jn)) ∧
    (∀ s : CrudeThrottler, (s.throttle).2 = 0 ∨ (s.throttle).2 = 60) := by
  constructor
  · intro clock i s hr hM hlast hstep
    obtain ⟨m, hm⟩ := exists_nat_ge ((1 - (s.b + s.r * (clock i - s.last))) / s.r)
    have hbound : (1 : ℚ) ≤ s.b + s.r * (clock i - s.last) + m * s.r := by
      rw [div_le_iff₀ hr] at hm
      linarith
    obtain ⟨s', jn, hrun, _⟩ := bucket_terminates clock m i s hr hM hlast hstep hbound
    exact ⟨m + 1, s', jn, hrun⟩
  · intro s
    by_cases hc : s.count + 1 > s.cpm
    · right
      show (if s.count + 1 > s.cpm then ((⟨s.cpm, 0⟩ : CrudeThrottler), (60 : Int))
            else (⟨s.cpm, s.count + 1⟩, 0)).2 = 60
      rw [if_pos hc]
    · left
      show (if s.count + 1 > s.cpm then ((⟨s.cpm, 0⟩ : CrudeThrottler), (60 : Int))
            else (⟨s.cpm, s.count + 1⟩, 0)).2 = 0
      rw [if_neg hc]

/-- C9 witness: a capacity-60 bucket under the natural-number clock, and
a counting throttler at its bound. -/
theorem C9_witness :
    (∃ fuel s' jn, LazyTokenBucket.throttleFuel (fun k => (k : ℚ)) fuel 0
        (LazyTokenBucket.init 60 0) = some (s', jn)) ∧
    (((⟨10, 10⟩ : CrudeThrottler).throttle).2 = 0 ∨
      ((⟨10, 10⟩ : CrudeThrottler).throttle).2 = 60) :=
  ⟨C9_acquire_terminates.1 (fun k => (k : ℚ)) 0 (LazyTokenBucket.init 60 0)
      (by norm_num [LazyTokenBucket.init]) (by norm_num [LazyTokenBucket.init])
      (by norm_num [LazyTokenBucket.init])
      (fun j hj => by push_cast; linarith),
   C9_acquire_terminates.2 ⟨10, 10⟩⟩

end Stockaid
